import Mathlib

/-
Verification of the swivel repository (src/src/main.rs): a single-file
command-line client that fetches one Notion page, classifies HTTP outcomes
into a closed error taxonomy, and pretty-prints a JSON body when possible.

The shallow embedding below translates the Rust source directly:
  - `ApiError` and `ApiResponse` mirror the two derived types;
  - `api_request` mirrors the function of the same name, with the three
    external capabilities it consumes (environment lookup, HTTP transport,
    JSON codec) passed in as explicit parameters, since they are external
    collaborators of the core;
  - `main` mirrors `fn main`, including the default page id and the
    stdout/stderr rendering; a Rust `fn main` returning the unit value
    terminates the process with exit status 0, which the model records in
    the `exit_code` field.
-/

namespace Swivel

/-- ApiError mirrors the Rust `enum ApiError` (derive(Debug)). -/
inductive ApiError
  | MissingApiKey
  | ConnectionFailed
  | Unauthorized
  | NotFound
  | ServerError
  | InvalidResponse
  deriving DecidableEq, Repr

/-- ApiResponse mirrors the Rust `struct ApiResponse { data: String }`. -/
structure ApiResponse where
  data : String
  deriving DecidableEq, Repr

/-- VarError mirrors `std::env::VarError`: the environment lookup fails
either because the variable is absent or because its value is not valid
Unicode. The Rust code maps both failures away with `map_err(|_| ...)`. -/
inductive VarError
  | notPresent
  | notUnicode
  deriving DecidableEq, Repr

/-- Header is one HTTP request header name/value pair. -/
structure Header where
  name : String
  value : String
  deriving DecidableEq, Repr

/-- RequestDescriptor is the fully assembled outbound request produced by
the builder chain `client.get(url).header(..).header(..)` in the source. -/
structure RequestDescriptor where
  method : String
  url : String
  headers : List Header
  deriving DecidableEq, Repr

/-- RawOutcome is the result of `send()`: either a transport-level delivery
failure with no status (`reqwest::Error` from `send()`), or an HTTP status
paired with the result of reading the body as text (`resp.text()`, which is
`none` when the body cannot be read as text). -/
inductive RawOutcome
  | sendError
  | response (status : Nat) (body : Option String)

/-- JsonCodec abstracts the serde_json capabilities the success path uses:
`from_str` (parse text to a JSON value, `none` on parse failure) and
`to_string_pretty` (pretty-print a value, `none` on failure). The Rust code
discards the error payloads with `unwrap_or`, so only success or failure of
each call is observable. -/
structure JsonCodec (α : Type) where
  from_str : String → Option α
  to_string_pretty : α → Option String

/-- isSuccess mirrors `StatusCode::is_success`: 200 ≤ status < 300. -/
def isSuccess (s : Nat) : Bool := 200 ≤ s && s < 300

/-- isServerError mirrors `StatusCode::is_server_error`: 500 ≤ status < 600. -/
def isServerError (s : Nat) : Bool := 500 ≤ s && s < 600

/-- normalize is the success-path fallback chain, line for line from
`serde_json::from_str::<Value>(&text).map(|v| to_string_pretty(&v).unwrap_or(text.clone())).unwrap_or(text)`. -/
def normalize {α : Type} (c : JsonCodec α) (text : String) : String :=
  ((c.from_str text).map (fun v => (c.to_string_pretty v).getD text)).getD text

/-- buildRequest mirrors step 2 of `api_request`: the URL built by
`format!` and the two `.header(..)` calls on the GET builder. -/
def buildRequest (page_id api_key : String) : RequestDescriptor :=
  { method := "GET"
  , url := "https://api.notion.com/v1/pages/" ++ page_id
  , headers :=
      [ { name := "Authorization", value := "Bearer " ++ api_key }
      , { name := "Notion-Version", value := "2025-09-03" } ] }

/-- classify mirrors the handling of the transport result in `api_request`:
`send().map_err(|_| ConnectionFailed)?` followed by the status-code chain
of step 3 and the success-path body handling. -/
def classify {α : Type} (c : JsonCodec α) (out : RawOutcome) :
    Except ApiError ApiResponse :=
  match out with
  | .sendError => .error .ConnectionFailed
  | .response status body =>
    if isSuccess status then
      match body with
      | none => .error .InvalidResponse
      | some text => .ok { data := normalize c text }
    else if status == 401 || status == 403 then .error .Unauthorized
    else if status == 404 then .error .NotFound
    else if isServerError status then .error .ServerError
    else .error .InvalidResponse

/-- api_request mirrors `fn api_request`: the environment lookup with
`map_err(|_| MissingApiKey)?`, the request build, the transport call, and
classification of the outcome. The environment lookup result and the
transport are explicit parameters standing for the external capabilities. -/
def api_request {α : Type} (c : JsonCodec α) (env_var : Except VarError String)
    (transport : RequestDescriptor → RawOutcome) (page_id : String) :
    Except ApiError ApiResponse :=
  match env_var with
  | .error _ => .error .MissingApiKey
  | .ok api_key => classify c (transport (buildRequest page_id api_key))

/-- debugStr mirrors the `{:?}` Debug formatting of ApiError. -/
def debugStr : ApiError → String
  | .MissingApiKey => "MissingApiKey"
  | .ConnectionFailed => "ConnectionFailed"
  | .Unauthorized => "Unauthorized"
  | .NotFound => "NotFound"
  | .ServerError => "ServerError"
  | .InvalidResponse => "InvalidResponse"

/-- MainOutput records what one invocation of `fn main` writes to each
stream and the process exit status it terminates with. -/
structure MainOutput where
  stdout : List String
  stderr : List String
  exit_code : Nat
  deriving DecidableEq, Repr

/-- default_id mirrors the fixed example identifier in `fn main`. -/
def default_id : String := "273a1865-b187-805e-88d3-cabf5f3cdf04"

/-- main mirrors `fn main`: take the page id from the first argument or the
default, call `api_request`, print the data to stdout on success or the
Debug form of the error to stderr on failure. `fn main` returns the unit
value on every path, so the process exit status is 0 on every path. -/
def main {α : Type} (c : JsonCodec α) (env_var : Except VarError String)
    (transport : RequestDescriptor → RawOutcome) (arg1 : Option String) :
    MainOutput :=
  let page_id := arg1.getD default_id
  let api_result := api_request c env_var transport page_id
  match api_result with
  | .ok response =>
      { stdout := ["Data received:\n" ++ response.data]
      , stderr := []
      , exit_code := 0 }
  | .error error =>
      { stdout := []
      , stderr := ["Error: " ++ debugStr error]
      , exit_code := 0 }

/-- noJson is a concrete codec for witnesses: every parse fails. -/
def noJson : JsonCodec Unit :=
  { from_str := fun _ => none, to_string_pretty := fun _ => none }

/-- parseOkPrettyFail is a concrete codec for witnesses: every parse
succeeds but pretty-printing always fails. -/
def parseOkPrettyFail : JsonCodec Unit :=
  { from_str := fun _ => some (), to_string_pretty := fun _ => none }

end Swivel

namespace Swivel

/-- C2: for every HTTP response outcome, classification maps the status
onto the error taxonomy exactly as the table states: 401 or 403 yields
Unauthorized regardless of body, 404 yields NotFound, 500-599 yields
ServerError, a 2xx status whose body cannot be read yields InvalidResponse,
and any other non-success status yields InvalidResponse as the fallback. -/
theorem status_taxonomy (α : Type) (c : JsonCodec α) :
    (∀ body, classify c (.response 401 body) = .error .Unauthorized) ∧
    (∀ body, classify c (.response 403 body) = .error .Unauthorized) ∧
    (∀ body, classify c (.response 404 body) = .error .NotFound) ∧
    (∀ s body, 500 ≤ s → s ≤ 599 →
      classify c (.response s body) = .error .ServerError) ∧
    (∀ s, 200 ≤ s → s ≤ 299 →
      classify c (.response s none) = .error .InvalidResponse) ∧
    (∀ s body, ¬ (200 ≤ s ∧ s ≤ 299) → s ≠ 401 → s ≠ 403 → s ≠ 404 →
      ¬ (500 ≤ s ∧ s ≤ 599) →
      classify c (.response s body) = .error .InvalidResponse) := by
  refine ⟨fun body => rfl, fun body => rfl, fun body => rfl, ?_, ?_, ?_⟩
  · intro s body h1 h2
    have hs : isSuccess s = false := by simp [isSuccess]; omega
    have hsrv : isServerError s = true := by simp [isServerError]; omega
    have h401 : (s == 401) = false := by simp; omega
    have h403 : (s == 403) = false := by simp; omega
    have h404 : (s == 404) = false := by simp; omega
    simp [classify, hs, hsrv, h401, h403, h404]
  · intro s h1 h2
    have hs : isSuccess s = true := by simp [isSuccess]; omega
    simp [classify, hs]
  · intro s body h1 h2 h3 h4 h5
    have hs : isSuccess s = false := by simp [isSuccess]; omega
    have hsrv : isServerError s = false := by simp [isServerError]; omega
    have h401 : (s == 401) = false := by simp; omega
    have h403 : (s == 403) = false := by simp; omega
    have h404 : (s == 404) = false := by simp; omega
    simp [classify, hs, hsrv, h401, h403, h404]

/-- C2 witness: the taxonomy theorem evaluated at statuses 503, 418 and a
200 response with an unreadable body. -/
theorem status_taxonomy_witness :
    classify noJson (.response 503 (some "x")) = .error .ServerError ∧
    classify noJson (.response 418 (some "x")) = .error .InvalidResponse ∧
    classify noJson (.response 200 none) = .error .InvalidResponse :=
  ⟨(status_taxonomy Unit noJson).2.2.2.1 503 (some "x") (by decide) (by decide),
   (status_taxonomy Unit noJson).2.2.2.2.2 418 (some "x") (by decide)
     (by decide) (by decide) (by decide) (by decide),
   (status_taxonomy Unit noJson).2.2.2.2.1 200 (by decide) (by decide)⟩

/-- C3: for every RawOutcome whose status is in [200,299] and whose body is
readable as text, classification yields a NormalizedResponse (never an
ApiError), whatever the JSON codec does with the text. -/
theorem success_always_normalized (α : Type) (c : JsonCodec α) (s : Nat)
    (text : String) (h1 : 200 ≤ s) (h2 : s ≤ 299) :
    classify c (.response s (some text)) = .ok { data := normalize c text } := by
  have hs : isSuccess s = true := by simp [isSuccess]; omega
  simp [classify, hs]

/-- C3 witness: the success theorem evaluated at status 200 with a
non-JSON body. -/
theorem success_always_normalized_witness :
    classify noJson (.response 200 (some "hello")) = .ok { data := "hello" } :=
  success_always_normalized Unit noJson 200 "hello" (by decide) (by decide)

/-- C4: when a 2xx body does not parse as JSON, the NormalizedResponse
equals the original body text exactly. -/
theorem non_json_body_identity (α : Type) (c : JsonCodec α) (s : Nat)
    (text : String) (h1 : 200 ≤ s) (h2 : s ≤ 299)
    (hp : c.from_str text = none) :
    classify c (.response s (some text)) = .ok { data := text } := by
  have hs : isSuccess s = true := by simp [isSuccess]; omega
  simp [classify, hs, normalize, hp]

/-- C4 witness: the fallback theorem evaluated at status 200 with the body
"hello world" under a codec that rejects every parse. -/
theorem non_json_body_identity_witness :
    classify noJson (.response 200 (some "hello world")) =
      .ok { data := "hello world" } :=
  non_json_body_identity Unit noJson 200 "hello world" (by decide) (by decide) rfl

/-- C5: when a 2xx body parses as a JSON value but pretty-printing that
value fails, the NormalizedResponse falls back to the original raw text
rather than producing an error. -/
theorem pretty_print_failure_fallback (α : Type) (c : JsonCodec α) (s : Nat)
    (text : String) (v : α) (h1 : 200 ≤ s) (h2 : s ≤ 299)
    (hp : c.from_str text = some v) (hq : c.to_string_pretty v = none) :
    classify c (.response s (some text)) = .ok { data := text } := by
  have hs : isSuccess s = true := by simp [isSuccess]; omega
  simp [classify, hs, normalize, hp, hq]

/-- C5 witness: the fallback theorem evaluated at status 200 under a codec
whose parse succeeds and whose pretty-printer always fails. -/
theorem pretty_print_failure_fallback_witness :
    classify parseOkPrettyFail (.response 200 (some "raw")) =
      .ok { data := "raw" } :=
  pretty_print_failure_fallback Unit parseOkPrettyFail 200 "raw" ()
    (by decide) (by decide) rfl rfl

/-- C6: when the credential cannot be obtained, the result is MissingApiKey
for every page id and for every reason of failure, and the result does not
depend on the transport at all: the transport is never consulted. -/
theorem missing_credential_short_circuit (α : Type) (c : JsonCodec α)
    (e : VarError) (t₁ t₂ : RequestDescriptor → RawOutcome) (page_id : String) :
    api_request c (.error e) t₁ page_id = .error .MissingApiKey ∧
    api_request c (.error e) t₁ page_id = api_request c (.error e) t₂ page_id :=
  ⟨rfl, rfl⟩

/-- C7: a transport-level delivery failure (no status available) is
classified as ConnectionFailed, both at the classifier and through
api_request with a transport that always fails to deliver. -/
theorem transport_failure_connection_failed (α : Type) (c : JsonCodec α)
    (api_key page_id : String) :
    classify c RawOutcome.sendError = .error .ConnectionFailed ∧
    api_request c (.ok api_key) (fun _ => .sendError) page_id =
      .error .ConnectionFailed :=
  ⟨rfl, rfl⟩

/-- C8: classification is a total function of RawOutcome: every outcome
maps to exactly one of a NormalizedResponse or an ApiError variant, and
never to both. -/
theorem classification_total (α : Type) (c : JsonCodec α) (out : RawOutcome) :
    ((∃ r, classify c out = .ok r) ∨ (∃ e, classify c out = .error e)) ∧
    ¬ ((∃ r, classify c out = .ok r) ∧ (∃ e, classify c out = .error e)) := by
  cases h : classify c out with
  | ok r =>
      refine ⟨Or.inl ⟨r, rfl⟩, ?_⟩
      rintro ⟨⟨r1, hr⟩, ⟨e1, he⟩⟩
      exact absurd (hr ▸ he) (by simp)
  | error e =>
      refine ⟨Or.inr ⟨e, rfl⟩, ?_⟩
      rintro ⟨⟨r1, hr⟩, ⟨e1, he⟩⟩
      exact absurd (hr ▸ he) (by simp)

/-- C9: for every page id and credential, the assembled request is exactly
a GET to https://api.notion.com/v1/pages/ followed by the page id verbatim,
carrying exactly the Authorization header with the Bearer credential and
the fixed Notion-Version header; being a function of its two inputs, it is
deterministic. -/
theorem request_wire_contract (page_id api_key : String) :
    buildRequest page_id api_key =
      { method := "GET"
      , url := "https://api.notion.com/v1/pages/" ++ page_id
      , headers :=
          [ { name := "Authorization", value := "Bearer " ++ api_key }
          , { name := "Notion-Version", value := "2025-09-03" } ] } :=
  rfl

/-- C10: every failure of the environment lookup, whether the variable is
absent or present but not valid Unicode, maps to MissingApiKey. -/
theorem env_failure_always_missing_api_key (α : Type) (c : JsonCodec α)
    (t : RequestDescriptor → RawOutcome) (page_id : String) :
    api_request c (.error .notPresent) t page_id = .error .MissingApiKey ∧
    api_request c (.error .notUnicode) t page_id = .error .MissingApiKey :=
  ⟨rfl, rfl⟩

/-- C1 counterexample: an invocation whose request fails with MissingApiKey
(the error branch of main is taken, as the stderr line shows) still
terminates with exit status 0, refuting the claim that any ApiError yields
a non-zero exit status. -/
theorem exit_status_counterexample :
    (main noJson (.error .notPresent) (fun _ => .sendError) none).stderr =
      ["Error: MissingApiKey"] ∧
    (main noJson (.error .notPresent) (fun _ => .sendError) none).exit_code = 0 :=
  ⟨rfl, rfl⟩

/-- C1 amended: the process exit status is 0 both on success and on any
ApiError; the success/failure distinction is conveyed only by which stream
receives output (stdout on success, stderr on failure), never by the exit
status. -/
theorem exit_status_zero_always (α : Type) (c : JsonCodec α)
    (env_var : Except VarError String) (t : RequestDescriptor → RawOutcome)
    (arg1 : Option String) :
    (main c env_var t arg1).exit_code = 0 ∧
    ((∃ r, api_request c env_var t (arg1.getD default_id) = .ok r) ↔
      (main c env_var t arg1).stderr = []) := by
  cases h : api_request c env_var t (arg1.getD default_id) with
  | ok r =>
      refine ⟨?_, ?_⟩ <;> simp [main, h]
  | error e =>
      refine ⟨?_, ?_⟩ <;> simp [main, h]

end Swivel
